import Mathlib

/-!
Verification of the GeoGuessr challenge bot (src/main.py) against its
natural-language specification.

The durable configuration document (data/config.json) is a JSON object
keyed by guild id (a string); each value optionally holds a daily_config
record and a daily_links mapping from date strings to challenge links.
JSON objects are embedded as association lists with Python dict update
semantics: setting an existing key replaces the value in place, setting a
fresh key appends at the end.

Remote HTTP interaction (aiohttp) is embedded by stubbing each response:
a response is either a 2xx success carrying a typed body, a non-2xx
status code, a transport-level failure (exception raised by the request
itself), or a 2xx response whose body fails to parse.  Functions that
the source wraps in try/except return plain values; where the source has
no handler the embedding returns an Except whose error constructor marks
an exception escaping the function.
-/

/-- JSON-object lookup: first binding of the key, as Python dict access. -/
def jsonGet {α : Type} : List (String × α) → String → Option α
  | [], _ => none
  | (k', v) :: rest, k => if k' = k then some v else jsonGet rest k

/-- JSON-object update with Python dict semantics: replace in place when the
key is present, append at the end otherwise. -/
def jsonSet {α : Type} : List (String × α) → String → α → List (String × α)
  | [], k, v => [(k, v)]
  | (k', v') :: rest, k, v =>
    if k' = k then (k, v) :: rest else (k', v') :: jsonSet rest k v

/-- The daily_config record as stored on disk.  slug_name is optional because
records written by the old version of the code lack it (backwards compat in
get_daily_config, src/main.py lines 286-288). -/
structure StoredDailyConfig where
  channel : Nat
  map_name : String
  slug_name : Option String
  time_limit : Nat
  no_move : Bool
  no_pan : Bool
  no_zoom : Bool
deriving DecidableEq

/-- The daily_config value returned by get_daily_config: slug_name is always
present after the backwards-compat synthesis. -/
structure LoadedDailyConfig where
  channel : Nat
  map_name : String
  slug_name : String
  time_limit : Nat
  no_move : Bool
  no_pan : Bool
  no_zoom : Bool
deriving DecidableEq

/-- One guild's value in the configuration document: optional daily_config and
optional daily_links (date string to challenge-link string). -/
structure GuildEntry where
  daily_config : Option StoredDailyConfig
  daily_links : Option (List (String × String))
deriving DecidableEq

/-- The whole configuration document, keyed by str(guild_id). -/
abbrev Config := List (String × GuildEntry)

/-- A guild entry as first created by the writers (no keys yet). -/
def emptyEntry : GuildEntry := ⟨none, none⟩

/-- Challenge-link lookup for a guild and date, as performed by
get_daily_link (src/main.py lines 350-355) and geodaily (lines 866-869). -/
def getLink (config : Config) (g date : String) : Option String :=
  match jsonGet config g with
  | some e =>
    match e.daily_links with
    | some links => jsonGet links date
    | none => none
  | none => none

/-- Embedding of GeoGuessr.get_daily_config (src/main.py lines 266-290).
channelKnown stubs bot.get_channel returning a channel; fetchNotFound stubs
bot.fetch_channel raising discord.NotFound.  When the configured channel no
longer exists the daily_config key is deleted and the document rewritten;
the slug_name backwards-compat synthesis (lines 286-288) happens only on the
returned value, never in the stored document.  Returns the loaded config
(none when not set) together with the resulting document. -/
def get_daily_config (config : Config) (g : String)
    (channelKnown fetchNotFound : Bool) : Option LoadedDailyConfig × Config :=
  match jsonGet config g with
  | some e =>
    match e.daily_config with
    | some dc =>
      let config' :=
        if !channelKnown && fetchNotFound then
          jsonSet config g { e with daily_config := none }
        else config
      (some ⟨dc.channel, dc.map_name, dc.slug_name.getD dc.map_name,
             dc.time_limit, dc.no_move, dc.no_pan, dc.no_zoom⟩, config')
    | none => (none, config)
  | none => (none, config)

/-- Embedding of GeoGuessr.set_daily_config (src/main.py lines 292-337).
channelId = none clears the daily_config key (daily_links is kept); a
non-null channelId writes a fresh daily_config and resets daily_links to the
empty object (line 335).  fetchedMapName stubs the remote
fetch_name_from_slug result used for map_name. -/
def set_daily_config (config : Config) (g : String) (channelId : Option Nat)
    (slug_name : String) (time_limit : Nat) (no_move no_pan no_zoom : Bool)
    (fetchedMapName : String) : Config :=
  match channelId with
  | none =>
    match jsonGet config g with
    | some e =>
      match e.daily_config with
      | some _ => jsonSet config g { e with daily_config := none }
      | none => config
    | none => config
  | some ch =>
    jsonSet config g
      { daily_config := some ⟨ch, fetchedMapName, some slug_name,
                              time_limit, no_move, no_pan, no_zoom⟩,
        daily_links := some [] }

/-- Outcome of one HTTP request as seen by the calling code: a 2xx response
carrying a parsed body, a non-2xx status code, a transport-level exception
raised by the request itself, or a 2xx response whose body fails to parse. -/
inductive HttpResponse (α : Type) where
  | success (body : α)
  | status (code : Nat)
  | netFail
  | badBody
deriving DecidableEq

/-- A response that does not yield a usable body. -/
def HttpResponse.isFailure {α : Type} : HttpResponse α → Bool
  | .success _ => false
  | _ => true

/-- Embedding of GeoGuessr.get_geoguessr_challenge_link (src/main.py lines
399-472).  The stub gives the response of the n-th POST to the challenges
endpoint; the function performs at most one such call.  Returns the link (or
none, the shared result of every failure branch: the 401 early return at
line 453, the 500 early return at line 457, and the except handler at lines
464-466 catching raise_for_status and parse errors) together with the number
of calls made to the endpoint.  cookiesPresent = false models the early
return at lines 431-433, before any request. -/
def get_geoguessr_challenge_link (cookiesPresent : Bool)
    (stub : Nat → HttpResponse String) : Option String × Nat :=
  if !cookiesPresent then (none, 0)
  else
    match stub 0 with
    | .status code =>
      if code = 401 then (none, 1)
      else if code = 500 then (none, 1)
      else (none, 1)
    | .netFail => (none, 1)
    | .badBody => (none, 1)
    | .success token => (some ("https://www.geoguessr.com/challenge/" ++ token), 1)

/-- One per-round guess inside a leaderboard item (the fields of the remote
payload that get_game_results reads).  Distances are modelled as integers;
the source converts them with float(), which the claims never exercise
arithmetically. -/
structure Guess where
  distanceInMeters : Int
  roundScore : Int
deriving DecidableEq

/-- One item of the highscores payload, restricted to the fields read by
get_game_results (entry.game.player of src/main.py lines 573-595). -/
structure RawEntry where
  nick : String
  id : String
  totalScore : Int
  totalDistanceInMeters : Int
  guesses : List Guess
deriving DecidableEq

/-- One element of the result list built by get_game_results. -/
structure RoundResult where
  distance : Int
  score : Int
deriving DecidableEq

/-- One processed leaderboard entry (src/main.py lines 587-595). -/
structure ResultEntry where
  username : String
  user_id : String
  score : Int
  distance : Int
  rounds : List RoundResult
deriving DecidableEq

/-- The per-entry conversion of src/main.py lines 578-595. -/
def toResultEntry (e : RawEntry) : ResultEntry :=
  ⟨e.nick, e.id, e.totalScore, e.totalDistanceInMeters,
   e.guesses.map (fun r => ⟨r.distanceInMeters, r.roundScore⟩)⟩

/-- Insertion step of a stable descending sort on the score field.  An
element is placed before the first element whose score is not larger, so
earlier elements stay first on ties, matching Python's stable
list.sort(key, reverse=True) at src/main.py line 596. -/
def insertDesc (x : ResultEntry) : List ResultEntry → List ResultEntry
  | [] => [x]
  | h :: t => if h.score ≤ x.score then x :: h :: t else h :: insertDesc x t

/-- Stable descending sort by score, the embedding of
results.sort(key=lambda x: x[score], reverse=True) at src/main.py line 596. -/
def sortDesc : List ResultEntry → List ResultEntry
  | [] => []
  | x :: t => insertDesc x (sortDesc t)

/-- The result-list construction of src/main.py lines 572-596: skip every
item whose nick equals the configured auto-solver username, convert the
rest, then sort by total score descending. -/
def processResults (items : List RawEntry) (botName : String) : List ResultEntry :=
  sortDesc ((items.filter (fun e => e.nick != botName)).map toResultEntry)

/-- The token extraction of src/main.py line 548:
link.rsplit("/", maxsplit=1)[-1], the substring after the final slash. -/
def extractToken (link : String) : String :=
  (link.splitOn "/").getLastD link

/-- The daily_links lookup and token extraction performed by
get_game_results before any network call (src/main.py lines 536-548). -/
def gameResultsToken (config : Config) (g date : String) : Option String :=
  match jsonGet config g with
  | some e =>
    match e.daily_links with
    | some links =>
      match jsonGet links date with
      | some link => some (extractToken link)
      | none => none
    | none => none
  | none => none

/-- The highscores fetch loop of src/main.py lines 552-570: up to two GET
requests to the highscores endpoint.  A 401 on the first attempt triggers
auto_guess (calls to other endpoints, not counted here) and one retry; a
401 on the retry returns None; any other non-2xx status, transport failure
or parse failure raises and is caught by the surrounding except handler,
which also returns None.  Returns the parsed payload (items list) and the
number of GET calls made to the highscores endpoint. -/
def fetchHighscores (stub : Nat → HttpResponse (List RawEntry)) :
    Option (List RawEntry) × Nat :=
  match stub 0 with
  | .success d => (some d, 1)
  | .status code =>
    if code = 401 then
      match stub 1 with
      | .success d => (some d, 2)
      | .status _ => (none, 2)
      | .netFail => (none, 2)
      | .badBody => (none, 2)
    else (none, 1)
  | .netFail => (none, 1)
  | .badBody => (none, 1)

/-- Embedding of GeoGuessr.get_game_results (src/main.py lines 527-604).
botName stubs os.environ[GEOGUESSR_AUTO_USERNAME]; the stub gives the
responses of the GET calls to the highscores endpoint.  Returns the
processed leaderboard (none when the guild or date has no recorded link, or
when the fetch fails) and the number of GET calls made to the endpoint. -/
def get_game_results (config : Config) (g date botName : String)
    (stub : Nat → HttpResponse (List RawEntry)) :
    Option (List ResultEntry) × Nat :=
  match gameResultsToken config g date with
  | none => (none, 0)
  | some _token =>
    match fetchHighscores stub with
    | (none, n) => (none, n)
    | (some items, n) => (some (processResults items botName), n)

/-- Embedding of GeoGuessr.get_daily_link (src/main.py lines 339-386) for a
fixed current date today.  mintResult stubs the result of the inner
get_geoguessr_challenge_link call; channelKnown and fetchNotFound are passed
to get_daily_config.  Returns the link (none when the daily challenge is not
set up or minting failed), the resulting configuration document, and the
number of mint calls performed (0 or 1). -/
def get_daily_link (config : Config) (g today : String) (force : Bool)
    (channelKnown fetchNotFound : Bool) (mintResult : Option String) :
    Option String × Config × Nat :=
  let daily_link := getLink config g today
  if daily_link.isSome && !force then (daily_link, config, 0)
  else
    match get_daily_config config g channelKnown fetchNotFound with
    | (none, config₁) => (none, config₁, 0)
    | (some _cfg, config₁) =>
      match mintResult with
      | none => (none, config₁, 1)
      | some link =>
        let entry := (jsonGet config₁ g).getD emptyEntry
        let links := entry.daily_links.getD []
        let entry' := { entry with daily_links := some (jsonSet links today link) }
        (some link, jsonSet config₁ g entry', 1)

/-- One execution of get_daily_link, with its stubbed inputs, used to state
how a sequence of link operations acts on the configuration document. -/
structure LinkOp where
  guild : String
  today : String
  force : Bool
  channelKnown : Bool
  fetchNotFound : Bool
  mintResult : Option String

/-- The configuration document after one get_daily_link execution. -/
def applyLinkOp (config : Config) (op : LinkOp) : Config :=
  (get_daily_link config op.guild op.today op.force
    op.channelKnown op.fetchNotFound op.mintResult).2.1

/-- The configuration document after a sequence of get_daily_link
executions. -/
def applyLinkOps (config : Config) : List LinkOp → Config
  | [] => config
  | op :: rest => applyLinkOps (applyLinkOp config op) rest

/-- The per-guild condition of send_missing_daily_challenges (src/main.py
lines 246-249): the guild key is present, both daily_links and daily_config
keys exist, and today's date is missing from daily_links. -/
def missingDailyCondition (config : Config) (g today : String) : Bool :=
  match jsonGet config g with
  | some e =>
    match e.daily_links, e.daily_config with
    | some links, some _ => (jsonGet links today).isNone
    | _, _ => false
  | none => false

/-- Embedding of GeoGuessr.send_missing_daily_challenges (src/main.py lines
233-251): scan bot.guilds and push (_send_daily_challenge) once for each
guild satisfying the missing-challenge condition.  The returned list holds
one element per push, in scan order. -/
def send_missing_daily_challenges (guilds : List String) (config : Config)
    (today : String) : List String :=
  guilds.filter (fun g => missingDailyCondition config g today)

/-- One entry of the in-memory map catalog all_maps_data. -/
structure MapEntry where
  name : String
  countryCode : String
deriving DecidableEq

/-- One map record of the remote payloads read by _load_map_data. -/
structure MapInfo where
  slug : String
  name : String
  countryCode : String
deriving DecidableEq

/-- The dict comprehension of src/main.py lines 123-126: rebuild
all_maps_data wholesale from the explorer payload. -/
def buildExplorerMaps (data : List MapInfo) : List (String × MapEntry) :=
  data.foldl (fun acc m => jsonSet acc m.slug ⟨m.name, m.countryCode⟩) []

/-- The setdefault loop of src/main.py lines 142-143: add popular maps that
are not yet in the catalog, with an empty country code. -/
def setdefaultMaps (maps : List (String × MapEntry)) (data : List MapInfo) :
    List (String × MapEntry) :=
  data.foldl
    (fun acc m =>
      if (jsonGet acc m.slug).isSome then acc else jsonSet acc m.slug ⟨m.name, ""⟩)
    maps

/-- First phase of _load_map_data (src/main.py lines 109-128): the explorer
request, wrapped in try/except — any failure (the 401 at line 117 still
reaches raise_for_status, a non-2xx status, a transport failure, a parse
failure) is caught and logged, leaving the catalog unchanged. -/
def loadMapDataExplorer (maps : List (String × MapEntry))
    (resp : HttpResponse (List MapInfo)) : List (String × MapEntry) :=
  match resp with
  | .success data => buildExplorerMaps data
  | _ => maps

/-- Second phase of _load_map_data (src/main.py lines 130-143): the popular
pages loop (pages 1 to 5 in the source), with no exception handler — the
first failing response makes raise_for_status (or the json parse) raise out
of _load_map_data, modelled as the error case. -/
def loadMapDataPopular (maps : List (String × MapEntry)) :
    List (HttpResponse (List MapInfo)) → Except Unit (List (String × MapEntry))
  | [] => .ok maps
  | r :: rest =>
    match r with
    | .success data => loadMapDataPopular (setdefaultMaps maps data) rest
    | _ => .error ()

/-- Embedding of GeoGuessr._load_map_data (src/main.py lines 104-143), one
iteration of the catalog refresh loop body (load_map_data at lines 145-151
only adds a sleep before calling it).  The error case is an exception
escaping the iteration. -/
def loadMapData (maps : List (String × MapEntry))
    (explorerResp : HttpResponse (List MapInfo))
    (popularResps : List (HttpResponse (List MapInfo))) :
    Except Unit (List (String × MapEntry)) :=
  loadMapDataPopular (loadMapDataExplorer maps explorerResp) popularResps

/-- A Python value as tested by an `is None` check: either None or some
non-None object such as a coroutine. -/
inductive PyOptional where
  | pynone
  | coroutine
deriving DecidableEq

/-- The value tested by the guard of cancelgeodaily (src/main.py line 807):
self.get_daily_config(ctx.guild.id) without an await.  Calling an async
function returns a coroutine object, never None, whatever the configuration
holds. -/
def cancelGuardValue (_config : Config) (_g : String) : PyOptional :=
  PyOptional.coroutine

/-- The reply sent by cancelgeodaily. -/
inductive CancelReply where
  | notSetUp
  | stopped
deriving DecidableEq

/-- Embedding of GeoGuessr.cancelgeodaily (src/main.py lines 803-812): if
the guard value is None reply that daily challenges are not set up,
otherwise clear the daily config and reply that they have been stopped.
The arguments after the channel in the set_daily_config call are the
declared defaults of set_daily_config (src/main.py lines 296-300); the
fetched map name is irrelevant on the clearing path. -/
def cancelgeodaily (config : Config) (g : String) : Config × CancelReply :=
  if cancelGuardValue config g = PyOptional.pynone then
    (config, CancelReply.notSetUp)
  else
    (set_daily_config config g none "world" 0 false false false "world",
     CancelReply.stopped)

/-- The daily_config value stored for a guild, if any. -/
def guildDailyConfig (config : Config) (g : String) : Option StoredDailyConfig :=
  (jsonGet config g).bind GuildEntry.daily_config

/-- The daily_links object stored for a guild, if any. -/
def guildDailyLinks (config : Config) (g : String) :
    Option (List (String × String)) :=
  (jsonGet config g).bind GuildEntry.daily_links

/-- Basic lemma: reading back the key just set. -/
theorem jsonGet_jsonSet_self {α : Type} (d : List (String × α)) (k : String) (v : α) :
    jsonGet (jsonSet d k v) k = some v := by
  induction d with
  | nil => simp [jsonGet, jsonSet]
  | cons hd tl ih =>
    obtain ⟨k', v'⟩ := hd
    by_cases h : k' = k
    · simp [jsonGet, jsonSet, h]
    · simp [jsonGet, jsonSet, h, ih]

/-- Basic lemma: setting one key leaves every other key unchanged. -/
theorem jsonGet_jsonSet_ne {α : Type} (d : List (String × α)) (k k' : String) (v : α)
    (h : k' ≠ k) : jsonGet (jsonSet d k v) k' = jsonGet d k' := by
  induction d with
  | nil => simp [jsonGet, jsonSet, Ne.symm h]
  | cons hd tl ih =>
    obtain ⟨k₀, v₀⟩ := hd
    by_cases h₀ : k₀ = k
    · subst h₀
      simp [jsonGet, jsonSet, Ne.symm h]
    · simp [jsonGet, jsonSet, h₀, ih]

/-- The token-extraction lookup of get_game_results agrees with getLink. -/
theorem gameResultsToken_eq_getLink (config : Config) (g date : String) :
    gameResultsToken config g date = (getLink config g date).map extractToken := by
  unfold gameResultsToken getLink
  rcases jsonGet config g with _ | ⟨dc, dl⟩
  · rfl
  · rcases dl with _ | links
    · rfl
    · rcases h : jsonGet links date with _ | link <;> simp [h]

/-- C8: reading a stored daily config that has only the legacy map_name field
(no slug_name) succeeds, the returned config carries slug_name equal to the
legacy map_name, and the stored document is not rewritten by the read (the
configured channel is assumed to exist, so the channel-remediation write is
not taken). -/
theorem geo_C8_backcompat_read (config : Config) (g : String) (e : GuildEntry)
    (dc : StoredDailyConfig) (fetchNotFound : Bool)
    (hg : jsonGet config g = some e) (hdc : e.daily_config = some dc)
    (hslug : dc.slug_name = none) :
    get_daily_config config g true fetchNotFound =
      (some ⟨dc.channel, dc.map_name, dc.map_name, dc.time_limit,
             dc.no_move, dc.no_pan, dc.no_zoom⟩, config) := by
  simp [get_daily_config, hg, hdc, hslug]

/-- Witness for C8 at a concrete legacy record. -/
theorem geo_C8_backcompat_read_witness :
    get_daily_config
      [("1", ⟨some ⟨5, "World Map", none, 180, false, false, false⟩, some []⟩)]
      "1" true false =
    (some ⟨5, "World Map", "World Map", 180, false, false, false⟩,
     [("1", ⟨some ⟨5, "World Map", none, 180, false, false, false⟩, some []⟩)]) :=
  geo_C8_backcompat_read
    [("1", ⟨some ⟨5, "World Map", none, 180, false, false, false⟩, some []⟩)]
    "1" ⟨some ⟨5, "World Map", none, 180, false, false, false⟩, some []⟩
    ⟨5, "World Map", none, 180, false, false, false⟩ false
    (by decide) (by decide) (by decide)

/-- C9: reconfiguring a tenant with a non-null channel replaces its
daily_links object with the empty object, so every previously recorded date
resolves to nothing afterwards. -/
theorem geo_C9_reconfig_erases_links (config : Config) (g : String) (ch : Nat)
    (slug : String) (tl : Nat) (nm np nz : Bool) (fetched : String)
    (date : String) :
    guildDailyLinks (set_daily_config config g (some ch) slug tl nm np nz fetched) g
      = some []
    ∧ getLink (set_daily_config config g (some ch) slug tl nm np nz fetched) g date
      = none := by
  constructor
  · simp [guildDailyLinks, set_daily_config, jsonGet_jsonSet_self]
  · simp [getLink, set_daily_config, jsonGet_jsonSet_self, jsonGet]

/-- C10: the guard of cancelgeodaily compares an un-awaited coroutine object
to None, which never holds, so for every tenant the command clears the daily
config and replies that daily challenges have been stopped, never that they
are not set up. -/
theorem geo_C10_cancel_guard_unreachable (config : Config) (g : String) :
    (cancelgeodaily config g).2 = CancelReply.stopped
    ∧ guildDailyConfig (cancelgeodaily config g).1 g = none := by
  refine ⟨rfl, ?_⟩
  show guildDailyConfig
    (set_daily_config config g none "world" 0 false false false "world") g = none
  unfold set_daily_config guildDailyConfig
  cases hq : jsonGet config g with
  | none => simp [hq]
  | some e =>
    cases hdc : e.daily_config with
    | none => simp [hq, hdc]
    | some dc => simp [hq, hdc, jsonGet_jsonSet_self]

/-- C6 amended: the mint operation returns the challenge link on success and
None on every failure; an unauthorized status, an invalid-options status,
any other error status, a transport failure and a parse failure all produce
the same None result after a single call, so the failure kinds are told
apart only in the logs, not in the returned value. -/
theorem geo_C6_mint_failures_all_none (code : Nat) (token : String) :
    get_geoguessr_challenge_link true (fun _ => .status code) = (none, 1)
    ∧ get_geoguessr_challenge_link true (fun _ => .netFail) = (none, 1)
    ∧ get_geoguessr_challenge_link true (fun _ => .badBody) = (none, 1)
    ∧ get_geoguessr_challenge_link true (fun _ => .success token)
      = (some ("https://www.geoguessr.com/challenge/" ++ token), 1) := by
  refine ⟨?_, rfl, rfl, rfl⟩
  simp [get_geoguessr_challenge_link]

/-- Counterexample to C6 as stated: the unauthorized failure, the
invalid-options failure and the transport failure return the very same
value (None), so the caller cannot distinguish AuthExpired, InvalidOptions
and TransportError from the result of the mint operation. -/
theorem geo_C6_counterexample :
    (get_geoguessr_challenge_link true (fun _ => .status 401)).1
      = (get_geoguessr_challenge_link true (fun _ => .status 500)).1
    ∧ (get_geoguessr_challenge_link true (fun _ => .status 500)).1
      = (get_geoguessr_challenge_link true (fun _ => .netFail)).1
    ∧ (get_geoguessr_challenge_link true (fun _ => .status 401)).1 = none :=
  ⟨rfl, rfl, rfl⟩

/-- C1 amended: against a remote stub that is unauthorized on every call,
the fetch-results operation makes exactly 2 calls to the highscores
endpoint (the original plus one retry) before returning the auth failure,
while the mint operation makes exactly 1 call to the challenges endpoint:
its unauthorized branch returns immediately and is never retried. -/
theorem geo_C1_retry_counts (stubM : Nat → HttpResponse String)
    (stubF : Nat → HttpResponse (List RawEntry))
    (config : Config) (g date bot link : String)
    (hM : ∀ n, stubM n = .status 401)
    (hF : ∀ n, stubF n = .status 401)
    (hL : getLink config g date = some link) :
    get_geoguessr_challenge_link true stubM = (none, 1)
    ∧ get_game_results config g date bot stubF = (none, 2) := by
  constructor
  · simp [get_geoguessr_challenge_link, hM 0]
  · rw [get_game_results, gameResultsToken_eq_getLink, hL]
    simp [fetchHighscores, hF 0, hF 1]

/-- Witness for C1 amended at a concrete document and the all-401 stub. -/
theorem geo_C1_retry_counts_witness :
    get_geoguessr_challenge_link true (fun _ => .status 401) = (none, 1)
    ∧ get_game_results
        [("1", ⟨none, some [("2024-05-01", "https://www.geoguessr.com/challenge/AbC")]⟩)]
        "1" "2024-05-01" "bot" (fun _ => .status 401) = (none, 2) :=
  geo_C1_retry_counts _ _ _ "1" "2024-05-01" "bot"
    "https://www.geoguessr.com/challenge/AbC"
    (fun _ => rfl) (fun _ => rfl) (by decide)

/-- Counterexample to C1 as stated: under the all-unauthorized stub the mint
operation makes 1 call to its endpoint, not 2. -/
theorem geo_C1_counterexample :
    ¬ (get_geoguessr_challenge_link true (fun _ => .status 401)).2 = 2 := by
  decide

/-- Counting an element in a filtered list. -/
theorem count_filter_push (p : String → Bool) (g : String) :
    ∀ guilds : List String,
      (guilds.filter p).count g = if p g then guilds.count g else 0 := by
  intro guilds
  induction guilds with
  | nil => simp
  | cons h t ih =>
    by_cases hph : p h
    · rw [List.filter_cons_of_pos hph]
      by_cases hpg : p g
      · rw [if_pos hpg] at ih ⊢
        rw [List.count_cons, List.count_cons, ih]
      · rw [if_neg hpg] at ih ⊢
        rw [List.count_cons, ih]
        have : ¬ (h == g) = true := by
          intro hb
          exact hpg (by rwa [eq_of_beq hb] at hph)
        simp [this]
    · rw [List.filter_cons_of_neg (by simpa using hph), ih]
      by_cases hpg : p g
      · rw [if_pos hpg, if_pos hpg, List.count_cons]
        have : ¬ (h == g) = true := by
          intro hb
          exact hph (by rwa [← eq_of_beq hb] at hpg)
        simp [this]
      · rw [if_neg hpg, if_neg hpg]

/-- C5: in the startup reconciliation sweep, a guild of the bot that has
both a daily_config and a daily_links record but no link for today receives
exactly one push, and a guild whose daily_links already has today's date
receives zero pushes. -/
theorem geo_C5_startup_reconciliation (guilds : List String) (config : Config)
    (g today : String) (links : List (String × String))
    (hcount : guilds.count g = 1) :
    ((guildDailyConfig config g).isSome = true →
     guildDailyLinks config g = some links →
     jsonGet links today = none →
     (send_missing_daily_challenges guilds config today).count g = 1)
    ∧ (∀ l, getLink config g today = some l →
       (send_missing_daily_challenges guilds config today).count g = 0) := by
  constructor
  · intro hdc hdl htoday
    have hcond : missingDailyCondition config g today = true := by
      unfold guildDailyConfig at hdc
      unfold guildDailyLinks at hdl
      unfold missingDailyCondition
      rcases hq : jsonGet config g with _ | ⟨odc, odl⟩
      · rw [hq] at hdl; simp at hdl
      · rw [hq] at hdc hdl
        simp at hdc hdl
        subst hdl
        rcases odc with _ | dc
        · simp at hdc
        · simp [htoday]
    unfold send_missing_daily_challenges
    rw [count_filter_push, if_pos hcond, hcount]
  · intro l hl
    have hcond : missingDailyCondition config g today = false := by
      unfold getLink at hl
      unfold missingDailyCondition
      rcases hq : jsonGet config g with _ | ⟨odc, odl⟩
      · rw [hq] at hl
      · rw [hq] at hl
        rcases odl with _ | links'
        · simp at hl
        · rcases odc with _ | dc
          · simp
          · simp at hl
            simp [hl]
    unfold send_missing_daily_challenges
    rw [count_filter_push, hcond]
    rfl

/-- Witness for C5: one guild still missing today's link gets one push, one
guild with today's link recorded gets zero. -/
theorem geo_C5_startup_reconciliation_witness :
    (send_missing_daily_challenges ["1", "2"]
      [("1", ⟨some ⟨5, "World", some "world", 180, false, false, false⟩, some []⟩)]
      "2024-05-01").count "1" = 1
    ∧ (send_missing_daily_challenges ["1", "2"]
        [("1", ⟨some ⟨5, "World", some "world", 180, false, false, false⟩,
                some [("2024-05-01", "L")]⟩)]
        "2024-05-01").count "1" = 0 :=
  ⟨(geo_C5_startup_reconciliation ["1", "2"]
      [("1", ⟨some ⟨5, "World", some "world", 180, false, false, false⟩, some []⟩)]
      "1" "2024-05-01" [] (by decide)).1 (by decide) (by decide) (by decide),
   (geo_C5_startup_reconciliation ["1", "2"]
      [("1", ⟨some ⟨5, "World", some "world", 180, false, false, false⟩,
              some [("2024-05-01", "L")]⟩)]
      "1" "2024-05-01" [] (by decide)).2 "L" (by decide)⟩

/-- Membership is preserved by the descending insertion step. -/
theorem mem_insertDesc {x y : ResultEntry} {l : List ResultEntry} :
    y ∈ insertDesc x l ↔ y = x ∨ y ∈ l := by
  induction l with
  | nil => simp [insertDesc]
  | cons h t ih =>
    by_cases hc : h.score ≤ x.score
    · simp [insertDesc, hc]
    · simp [insertDesc, hc, ih]
      tauto

/-- The descending insertion step preserves descending sortedness. -/
theorem pairwise_insertDesc {x : ResultEntry} {l : List ResultEntry}
    (h : l.Pairwise (fun a b => b.score ≤ a.score)) :
    (insertDesc x l).Pairwise (fun a b => b.score ≤ a.score) := by
  induction l with
  | nil => simp [insertDesc]
  | cons hd t ih =>
    rw [List.pairwise_cons] at h
    obtain ⟨hhd, ht⟩ := h
    by_cases hc : hd.score ≤ x.score
    · simp only [insertDesc, if_pos hc]
      refine List.Pairwise.cons ?_ (List.Pairwise.cons hhd ht)
      intro y hy
      rcases List.mem_cons.mp hy with rfl | hyt
      · exact hc
      · exact le_trans (hhd y hyt) hc
    · simp only [insertDesc, if_neg hc]
      refine List.Pairwise.cons ?_ (ih ht)
      intro y hy
      rcases mem_insertDesc.mp hy with rfl | hyt
      · exact le_of_not_le hc
      · exact hhd y hyt

/-- The sort of the result list is sorted by descending score. -/
theorem sortDesc_pairwise (l : List ResultEntry) :
    (sortDesc l).Pairwise (fun a b => b.score ≤ a.score) := by
  induction l with
  | nil => simp [sortDesc]
  | cons x t ih => exact pairwise_insertDesc ih

/-- Membership is preserved by the descending sort. -/
theorem mem_sortDesc {y : ResultEntry} {l : List ResultEntry} :
    y ∈ sortDesc l ↔ y ∈ l := by
  induction l with
  | nil => simp [sortDesc]
  | cons x t ih => simp [sortDesc, mem_insertDesc, ih]

/-- Every entry surviving the leaderboard processing carries a username
different from the configured auto-solver username. -/
theorem processResults_no_bot {items : List RawEntry} {botName : String}
    {e : ResultEntry} (he : e ∈ processResults items botName) :
    e.username ≠ botName := by
  unfold processResults at he
  rw [mem_sortDesc] at he
  obtain ⟨raw, hraw, rfl⟩ := List.mem_map.mp he
  obtain ⟨_hmem, hne⟩ := List.mem_filter.mp hraw
  simpa [toResultEntry] using bne_iff_ne.mp hne

/-- C3: every successful fetch of results returns a list sorted by total
score in descending order, and the serving account's own entry (matched by
display name against the configured auto-solver username) is absent from
the output. -/
theorem geo_C3_leaderboard (config : Config) (g date botName : String)
    (stub : Nat → HttpResponse (List RawEntry)) (l : List ResultEntry)
    (h : (get_game_results config g date botName stub).1 = some l) :
    l.Pairwise (fun a b => b.score ≤ a.score)
    ∧ ∀ e ∈ l, e.username ≠ botName := by
  unfold get_game_results at h
  rcases ht : gameResultsToken config g date with _ | tok
  · rw [ht] at h; simp at h
  · rw [ht] at h
    rcases hf : fetchHighscores stub with ⟨d, n⟩
    rw [hf] at h
    rcases d with _ | items
    · simp at h
    · simp at h
      subst h
      exact ⟨sortDesc_pairwise _, fun e he => processResults_no_bot he⟩

/-- Witness for C3: input scores 10, 50, 30 (plus a bot entry with a higher
score) come back ordered 50, 30, 10 with the bot entry absent. -/
theorem geo_C3_leaderboard_witness :
    ([⟨"alice", "a", 50, 0, []⟩, ⟨"carol", "c", 30, 0, []⟩, ⟨"bob", "b", 10, 0, []⟩]
        : List ResultEntry).Pairwise (fun a b => b.score ≤ a.score)
    ∧ ∀ e ∈ ([⟨"alice", "a", 50, 0, []⟩, ⟨"carol", "c", 30, 0, []⟩,
              ⟨"bob", "b", 10, 0, []⟩] : List ResultEntry),
        e.username ≠ "bot" :=
  geo_C3_leaderboard
    [("1", ⟨none, some [("2024-05-01", "https://www.geoguessr.com/challenge/T")]⟩)]
    "1" "2024-05-01" "bot"
    (fun _ => .success [⟨"bob", "b", 10, 0, []⟩, ⟨"alice", "a", 50, 0, []⟩,
                        ⟨"bot", "z", 9999, 0, []⟩, ⟨"carol", "c", 30, 0, []⟩])
    [⟨"alice", "a", 50, 0, []⟩, ⟨"carol", "c", 30, 0, []⟩, ⟨"bob", "b", 10, 0, []⟩]
    (by decide)

/-- Writing one guild entry does not change the link lookups of any other
guild. -/
theorem getLink_jsonSet_ne (c : Config) (g T D : String) (e : GuildEntry)
    (h : T ≠ g) : getLink (jsonSet c g e) T D = getLink c T D := by
  unfold getLink
  rw [jsonGet_jsonSet_ne c g T e h]

/-- The channel-remediation write of get_daily_config never touches
daily_links, so every recorded link survives it. -/
theorem getLink_get_daily_config (config : Config) (g : String)
    (ck fn : Bool) (T D : String) :
    getLink (get_daily_config config g ck fn).2 T D = getLink config T D := by
  unfold get_daily_config
  rcases hq : jsonGet config g with _ | ⟨odc, odl⟩
  · rfl
  · rcases odc with _ | dc
    · rfl
    · simp only []
      by_cases hcond : (!ck && fn) = true
      · rw [if_pos hcond]
        by_cases hT : T = g
        · subst hT
          unfold getLink
          rw [jsonGet_jsonSet_self, hq]
        · exact getLink_jsonSet_ne config g T D _ hT
      · rw [if_neg hcond]

/-- One get_daily_link execution for a different guild or different date
never changes an already recorded link. -/
theorem getLink_applyLinkOp (config : Config) (op : LinkOp) (T D link : String)
    (hL : getLink config T D = some link)
    (hne : op.guild ≠ T ∨ op.today ≠ D) :
    getLink (applyLinkOp config op) T D = some link := by
  have hpres := getLink_get_daily_config config op.guild op.channelKnown
    op.fetchNotFound T D
  unfold applyLinkOp get_daily_link
  by_cases hcache :
      ((getLink config op.guild op.today).isSome && !op.force) = true
  · simp only [hcache, if_pos]
    exact hL
  · simp only [hcache]
    rw [if_neg (by simp [hcache])]
    rcases hgdc : get_daily_config config op.guild op.channelKnown
        op.fetchNotFound with ⟨ocfg, c₁⟩
    rw [hgdc] at hpres
    simp only [] at hpres
    have hL₁ : getLink c₁ T D = some link := by rw [hpres]; exact hL
    rcases ocfg with _ | cfg
    · exact hL₁
    · rcases op.mintResult with _ | newLink
      · exact hL₁
      · by_cases hT : T = op.guild
        · subst hT
          have hD : op.today ≠ D := by
            rcases hne with h | h
            · exact absurd rfl h
            · exact h
          unfold getLink at hL₁
          rcases hq₁ : jsonGet c₁ op.guild with _ | e₀
          · rw [hq₁] at hL₁; simp at hL₁
          · rw [hq₁] at hL₁
            simp only [] at hL₁
            rcases hdl₁ : e₀.daily_links with _ | links₀
            · rw [hdl₁] at hL₁; simp at hL₁
            · rw [hdl₁] at hL₁
              simp only [getLink, jsonGet_jsonSet_self, hq₁, Option.getD_some, hdl₁]
              rw [jsonGet_jsonSet_ne links₀ op.today D _ (Ne.symm hD)]
              exact hL₁
        · rw [getLink_jsonSet_ne c₁ op.guild T D _ hT]
          exact hL₁

/-- A recorded link survives any sequence of get_daily_link executions for
other guild-date pairs. -/
theorem getLink_applyLinkOps (config : Config) (ops : List LinkOp)
    (T D link : String)
    (hL : getLink config T D = some link)
    (hne : ∀ op ∈ ops, op.guild ≠ T ∨ op.today ≠ D) :
    getLink (applyLinkOps config ops) T D = some link := by
  induction ops generalizing config with
  | nil => exact hL
  | cons op rest ih =>
    exact ih _ (getLink_applyLinkOp config op T D link hL (hne op (by simp)))
      (fun o ho => hne o (by simp [ho]))

/-- C2: once a link is recorded for a tenant and date, every later getLink
lookup returns that same link and every later get_game_results lookup uses
exactly its token, no matter how many mint operations (get_daily_link
executions, forced or not) run for other dates or other tenants. -/
theorem geo_C2_link_stability (config : Config) (ops : List LinkOp)
    (T D link : String)
    (hL : getLink config T D = some link)
    (hne : ∀ op ∈ ops, op.guild ≠ T ∨ op.today ≠ D) :
    getLink (applyLinkOps config ops) T D = some link
    ∧ gameResultsToken (applyLinkOps config ops) T D
      = some (extractToken link) := by
  have h := getLink_applyLinkOps config ops T D link hL hne
  refine ⟨h, ?_⟩
  rw [gameResultsToken_eq_getLink, h]
  rfl

/-- Witness for C2: a recorded link survives a forced mint for the next day
and a mint for another guild on the same date. -/
theorem geo_C2_link_stability_witness :
    getLink (applyLinkOps
      [("1", ⟨some ⟨5, "World", some "world", 180, false, false, false⟩,
              some [("2024-05-01", "https://www.geoguessr.com/challenge/T1")]⟩)]
      [⟨"1", "2024-05-02", true, true, false,
        some "https://www.geoguessr.com/challenge/T2"⟩,
       ⟨"2", "2024-05-01", false, true, false,
        some "https://www.geoguessr.com/challenge/T3"⟩])
      "1" "2024-05-01" = some "https://www.geoguessr.com/challenge/T1"
    ∧ gameResultsToken (applyLinkOps
        [("1", ⟨some ⟨5, "World", some "world", 180, false, false, false⟩,
                some [("2024-05-01", "https://www.geoguessr.com/challenge/T1")]⟩)]
        [⟨"1", "2024-05-02", true, true, false,
          some "https://www.geoguessr.com/challenge/T2"⟩,
         ⟨"2", "2024-05-01", false, true, false,
          some "https://www.geoguessr.com/challenge/T3"⟩])
        "1" "2024-05-01"
      = some (extractToken "https://www.geoguessr.com/challenge/T1") :=
  geo_C2_link_stability
    [("1", ⟨some ⟨5, "World", some "world", 180, false, false, false⟩,
            some [("2024-05-01", "https://www.geoguessr.com/challenge/T1")]⟩)]
    [⟨"1", "2024-05-02", true, true, false,
      some "https://www.geoguessr.com/challenge/T2"⟩,
     ⟨"2", "2024-05-01", false, true, false,
      some "https://www.geoguessr.com/challenge/T3"⟩]
    "1" "2024-05-01" "https://www.geoguessr.com/challenge/T1"
    (by decide) (by decide)

/-- A read through get_daily_config with the channel known to exist never
rewrites the document. -/
theorem get_daily_config_channel_known (config : Config) (g : String)
    (fn : Bool) : (get_daily_config config g true fn).2 = config := by
  unfold get_daily_config
  rcases jsonGet config g with _ | ⟨odc, odl⟩
  · rfl
  · rcases odc with _ | dc
    · rfl
    · rfl

/-- When today's link is already cached, get_daily_link returns it without
minting and without touching the document. -/
theorem get_daily_link_cached (c : Config) (g today : String) (ck fn : Bool)
    (m : Option String) (t : String) (hc : getLink c g today = some t) :
    get_daily_link c g today false ck fn m = (some t, c, 0) := by
  unfold get_daily_link
  rw [hc]
  rfl

/-- When today's link is missing and the tenant is configured (channel
existing), get_daily_link mints once and records the minted link under
today's date. -/
theorem get_daily_link_records (config : Config) (g today : String)
    (fn : Bool) (t : String)
    (hpending : getLink config g today = none)
    (hconfigured : (get_daily_config config g true fn).1.isSome = true) :
    (get_daily_link config g today false true fn (some t)).1 = some t
    ∧ (get_daily_link config g today false true fn (some t)).2.2 = 1
    ∧ getLink (get_daily_link config g today false true fn (some t)).2.1 g today
      = some t := by
  obtain ⟨cfg, hcfg⟩ := Option.isSome_iff_exists.mp hconfigured
  have hsnd := get_daily_config_channel_known config g fn
  have hpair : get_daily_config config g true fn = (some cfg, config) := by
    rcases hdc : get_daily_config config g true fn with ⟨a, b⟩
    rw [hdc] at hcfg hsnd
    simp only [] at hcfg hsnd
    rw [hcfg, hsnd]
  refine ⟨?_, ?_, ?_⟩
  · unfold get_daily_link
    rw [hpending, hpair]
    rfl
  · unfold get_daily_link
    rw [hpending, hpair]
    rfl
  · unfold get_daily_link
    rw [hpending, hpair]
    show getLink (jsonSet config g
      { daily_config := ((jsonGet config g).getD emptyEntry).daily_config,
        daily_links := some (jsonSet
          (((jsonGet config g).getD emptyEntry).daily_links.getD []) today t) })
      g today = some t
    unfold getLink
    rw [jsonGet_jsonSet_self]
    exact jsonGet_jsonSet_self _ today t

/-- C4: pushing twice for the same tenant on a still-pending day records a
single token: the first push mints exactly once and records the minted
link, and the second push returns that same link with zero mint calls and
an unchanged document, whatever its own mint stub would have produced. -/
theorem geo_C4_daily_push_idempotent (config : Config) (g today : String)
    (fn fn₂ ck₂ : Bool) (t : String) (m₂ : Option String)
    (hpending : getLink config g today = none)
    (hconfigured : (get_daily_config config g true fn).1.isSome = true) :
    (get_daily_link config g today false true fn (some t)).1 = some t
    ∧ (get_daily_link config g today false true fn (some t)).2.2 = 1
    ∧ get_daily_link (get_daily_link config g today false true fn (some t)).2.1
        g today false ck₂ fn₂ m₂
      = (some t, (get_daily_link config g today false true fn (some t)).2.1, 0) := by
  obtain ⟨hr, hn, hrec⟩ :=
    get_daily_link_records config g today fn t hpending hconfigured
  exact ⟨hr, hn, get_daily_link_cached _ g today ck₂ fn₂ m₂ t hrec⟩

/-- Witness for C4 at a concrete configured tenant with no link for today;
the second push would have minted a different link but does not mint. -/
theorem geo_C4_daily_push_idempotent_witness :
    (get_daily_link
      [("1", ⟨some ⟨5, "World", some "world", 180, false, false, false⟩, some []⟩)]
      "1" "2024-05-01" false true false (some "L1")).1 = some "L1"
    ∧ (get_daily_link
        [("1", ⟨some ⟨5, "World", some "world", 180, false, false, false⟩, some []⟩)]
        "1" "2024-05-01" false true false (some "L1")).2.2 = 1
    ∧ get_daily_link
        (get_daily_link
          [("1", ⟨some ⟨5, "World", some "world", 180, false, false, false⟩, some []⟩)]
          "1" "2024-05-01" false true false (some "L1")).2.1
        "1" "2024-05-01" false true true (some "L2")
      = (some "L1",
         (get_daily_link
           [("1", ⟨some ⟨5, "World", some "world", 180, false, false, false⟩, some []⟩)]
           "1" "2024-05-01" false true false (some "L1")).2.1, 0) :=
  geo_C4_daily_push_idempotent
    [("1", ⟨some ⟨5, "World", some "world", 180, false, false, false⟩, some []⟩)]
    "1" "2024-05-01" false true true "L1" (some "L2")
    (by decide) (by decide)

/-- Whether a computation finished without an exception escaping. -/
def exceptOk {ε α : Type} : Except ε α → Bool
  | .ok _ => true
  | .error _ => false

/-- The popular-maps phase finishes normally when every page response
succeeds. -/
theorem loadMapDataPopular_ok (resps : List (HttpResponse (List MapInfo)))
    (hok : ∀ p ∈ resps, p.isFailure = false) :
    ∀ maps, exceptOk (loadMapDataPopular maps resps) = true := by
  induction resps with
  | nil => intro maps; rfl
  | cons p rest ih =>
    intro maps
    cases p with
    | success d => exact ih (fun q hq => hok q (by simp [hq])) _
    | status c =>
      have := hok (.status c) (by simp)
      simp [HttpResponse.isFailure] at this
    | netFail =>
      have := hok .netFail (by simp)
      simp [HttpResponse.isFailure] at this
    | badBody =>
      have := hok .badBody (by simp)
      simp [HttpResponse.isFailure] at this

/-- Every failing response makes the mint operation return None (the
failure is converted to a value inside the function, no exception
escapes). -/
theorem mint_fail (stubM : Nat → HttpResponse String)
    (hM : (stubM 0).isFailure = true) :
    (get_geoguessr_challenge_link true stubM).1 = none := by
  unfold get_geoguessr_challenge_link
  cases h0 : stubM 0 with
  | success t => rw [h0] at hM; simp [HttpResponse.isFailure] at hM
  | status c =>
    simp only [Bool.not_true, Bool.false_eq_true, if_false, h0]
    by_cases hc : c = 401 <;> by_cases hc' : c = 500 <;> simp [hc, hc']
  | netFail => rfl
  | badBody => rfl

/-- Every all-failing stub makes the highscores fetch return no data. -/
theorem fetchHighscores_fail (stubF : Nat → HttpResponse (List RawEntry))
    (hF : ∀ n, (stubF n).isFailure = true) :
    (fetchHighscores stubF).1 = none := by
  unfold fetchHighscores
  cases h0 : stubF 0 with
  | success d =>
    have := hF 0; rw [h0] at this; simp [HttpResponse.isFailure] at this
  | status c =>
    by_cases hc : c = 401
    · subst hc
      simp only [if_pos rfl]
      cases h1 : stubF 1 with
      | success d =>
        have := hF 1; rw [h1] at this; simp [HttpResponse.isFailure] at this
      | status c2 => rfl
      | netFail => rfl
      | badBody => rfl
    · simp [hc]
  | netFail => rfl
  | badBody => rfl

/-- C7 amended: the daily challenge loop's remote-service failures are all
converted to None values at the component boundary (mint and fetch-results
return None on any failing response), so one bad remote interaction never
raises out of a daily iteration; the catalog refresh iteration survives any
failure of the explorer request, but any error status, transport failure or
malformed body in the popular-maps phase escapes the iteration as an
unhandled exception. -/
theorem geo_C7_loop_resilience
    (maps : List (String × MapEntry))
    (explorerResp : HttpResponse (List MapInfo))
    (popularResps : List (HttpResponse (List MapInfo)))
    (r : HttpResponse (List MapInfo)) (rest : List (HttpResponse (List MapInfo)))
    (config : Config) (g date bot : String)
    (stubM : Nat → HttpResponse String)
    (stubF : Nat → HttpResponse (List RawEntry))
    (hok : ∀ p ∈ popularResps, p.isFailure = false)
    (hr : r.isFailure = true)
    (hM : (stubM 0).isFailure = true)
    (hF : ∀ n, (stubF n).isFailure = true) :
    exceptOk (loadMapData maps explorerResp popularResps) = true
    ∧ loadMapData maps explorerResp (r :: rest) = .error ()
    ∧ (get_geoguessr_challenge_link true stubM).1 = none
    ∧ (get_game_results config g date bot stubF).1 = none := by
  refine ⟨loadMapDataPopular_ok popularResps hok _, ?_, mint_fail stubM hM, ?_⟩
  · unfold loadMapData
    cases r with
    | success d => simp [HttpResponse.isFailure] at hr
    | status c => rfl
    | netFail => rfl
    | badBody => rfl
  · unfold get_game_results
    rcases ht : gameResultsToken config g date with _ | tok
    · rfl
    · rcases hfh : fetchHighscores stubF with ⟨d, n⟩
      have hfail := fetchHighscores_fail stubF hF
      rw [hfh] at hfail
      simp only [] at hfail
      subst hfail
      rfl

/-- Witness for C7 amended at concrete stubs: a failing explorer phase is
survived when the popular pages succeed, a 500 on a popular page escapes,
and failing mint and fetch stubs surface as None. -/
theorem geo_C7_loop_resilience_witness :
    exceptOk (loadMapData [] HttpResponse.netFail
      [HttpResponse.success [⟨"world", "World", ""⟩]]) = true
    ∧ loadMapData [] HttpResponse.netFail
        (HttpResponse.status 500 :: []) = .error ()
    ∧ (get_geoguessr_challenge_link true (fun _ => HttpResponse.status 503)).1
      = none
    ∧ (get_game_results [] "1" "2024-05-01" "bot"
        (fun _ => HttpResponse.netFail)).1 = none :=
  geo_C7_loop_resilience [] HttpResponse.netFail
    [HttpResponse.success [⟨"world", "World", ""⟩]]
    (HttpResponse.status 500) [] [] "1" "2024-05-01" "bot"
    (fun _ => HttpResponse.status 503) (fun _ => HttpResponse.netFail)
    (by decide) (by decide) (by decide) (fun _ => rfl)

/-- Counterexample to C7 as stated: an error status on the first
popular-maps page makes one iteration of the catalog refresh loop end with
an unhandled exception escaping the iteration, even when the explorer
request succeeded. -/
theorem geo_C7_counterexample :
    loadMapData [] (HttpResponse.success [⟨"world", "World", "wd"⟩])
      [HttpResponse.status 500] = .error () := rfl
